import Mathlib

/-!
Verification of the DashWidgets multi-window spatial management engine
(src/main.py) against its natural-language specification.

The Python source is shallowly embedded: window geometries become integer
rectangles (mirroring Qt's `QRect`, whose `right`/`bottom` accessors return
`x + w - 1` / `y + h - 1`), the drag-time snapping logic of
`BaseWidget.mouseMoveEvent` becomes a fold over the sibling list, the resize
clamp of `BaseWidget._update_widget_size` becomes `max`/`min` arithmetic on
`Int`, the click-through toggle of `BaseWidget._toggle_click_through` becomes
bit operations on a `Nat` extended-style word, and the persistence layer
(`WidgetConfig` and `WidgetManager._restore_widgets`) becomes functions over
lists of configuration entries with optional fields, matching Python's
`dict.get` defaults.
-/

namespace DashWidgets

/-- A rectangle as the Python code reads it from Qt: top-left corner `(x, y)`
and extents `(w, h)`. -/
structure QRectE where
  x : Int
  y : Int
  w : Int
  h : Int
  deriving DecidableEq, Repr

/-- `QRect.left()` is the x coordinate. -/
def QRectE.left (r : QRectE) : Int := r.x

/-- `QRect.right()` in Qt returns `x + w - 1`. -/
def QRectE.right (r : QRectE) : Int := r.x + r.w - 1

/-- `QRect.top()` is the y coordinate. -/
def QRectE.top (r : QRectE) : Int := r.y

/-- `QRect.bottom()` in Qt returns `y + h - 1`. -/
def QRectE.bottom (r : QRectE) : Int := r.y + r.h - 1

/-! ## Snap engine: `BaseWidget.mouseMoveEvent` (src/main.py lines 744-823)

`cx, cy` is the drag candidate top-left (`new_pos`), `w, h` the moving
window's full size (`self.width()`, `self.height()`), `t` the snap
threshold, `scr` the screen's available geometry and `sibs` the geometries
of the other visible widgets in iteration order over
`BaseWidget._all_widgets`. -/

/-- `BaseWidget._check_y_overlap` (lines 686-690): the moving window's
Y-range (at candidate y `myY` with height `selfH`) intersects `o`'s. -/
def yOverlapB (myY selfH : Int) (o : QRectE) : Bool :=
  !(decide (myY + selfH < o.top) || decide (myY > o.bottom))

/-- `BaseWidget._check_x_overlap` (lines 692-696). -/
def xOverlapB (myX selfW : Int) (o : QRectE) : Bool :=
  !(decide (myX + selfW < o.left) || decide (myX > o.right))

/-- Screen-edge snap for the x axis (lines 757-764): left edge first,
right edge only otherwise (`elif`). -/
def screenSnapX (cx w t : Int) (scr : QRectE) : Option Int :=
  if |cx - scr.left| < t then some scr.left
  else if |cx + w - scr.right| < t then some (scr.right - w)
  else none

/-- Screen-edge snap for the y axis (lines 766-773). -/
def screenSnapY (cy h t : Int) (scr : QRectE) : Option Int :=
  if |cy - scr.top| < t then some scr.top
  else if |cy + h - scr.bottom| < t then some (scr.bottom - h)
  else none

/-- One sibling's effect on `snap_x` (lines 782-793): snap the moving
window's right edge to `o`'s left, else (`elif`) its left edge to `o`'s
right, each guarded by the Y-overlap check; otherwise keep the current
value. -/
def sibStepX (cx cy w h t : Int) (cur : Option Int) (o : QRectE) : Option Int :=
  if |cx + w - o.left| < t then
    if yOverlapB cy h o then some (o.left - w) else cur
  else if |cx - o.right| < t then
    if yOverlapB cy h o then some o.right else cur
  else cur

/-- One sibling's effect on `snap_y` (lines 795-805). -/
def sibStepY (cx cy w h t : Int) (cur : Option Int) (o : QRectE) : Option Int :=
  if |cy + h - o.top| < t then
    if xOverlapB cx w o then some (o.top - h) else cur
  else if |cy - o.bottom| < t then
    if xOverlapB cx w o then some o.bottom else cur
  else cur

/-- The value sibling `o` would write into `snap_x`, if any. -/
def sibValX (cx cy w h t : Int) (o : QRectE) : Option Int :=
  if |cx + w - o.left| < t then
    if yOverlapB cy h o then some (o.left - w) else none
  else if |cx - o.right| < t then
    if yOverlapB cy h o then some o.right else none
  else none

/-- The value sibling `o` would write into `snap_y`, if any. -/
def sibValY (cx cy w h t : Int) (o : QRectE) : Option Int :=
  if |cy + h - o.top| < t then
    if xOverlapB cx w o then some (o.top - h) else none
  else if |cy - o.bottom| < t then
    if xOverlapB cx w o then some o.bottom else none
  else none

/-- `snap_x` after the screen-edge checks and the sibling loop. -/
def snapX (cx cy w h t : Int) (scr : QRectE) (sibs : List QRectE) : Option Int :=
  sibs.foldl (sibStepX cx cy w h t) (screenSnapX cx w t scr)

/-- `snap_y` after the screen-edge checks and the sibling loop. -/
def snapY (cx cy w h t : Int) (scr : QRectE) (sibs : List QRectE) : Option Int :=
  sibs.foldl (sibStepY cx cy w h t) (screenSnapY cy h t scr)

/-- The position actually applied by `mouseMoveEvent` (lines 807-822):
each axis keeps its raw candidate unless that axis snapped; with snapping
disabled the raw candidate is used. -/
def dragPosition (enabled : Bool) (cx cy w h t : Int) (scr : QRectE)
    (sibs : List QRectE) : Int × Int :=
  if enabled then
    ((snapX cx cy w h t scr sibs).getD cx, (snapY cx cy w h t scr sibs).getD cy)
  else (cx, cy)

lemma sibStepX_eq_or (cx cy w h t : Int) (cur : Option Int) (o : QRectE) :
    sibStepX cx cy w h t cur o = (sibValX cx cy w h t o).or cur := by
  unfold sibStepX sibValX
  split_ifs <;> rfl

lemma sibStepY_eq_or (cx cy w h t : Int) (cur : Option Int) (o : QRectE) :
    sibStepY cx cy w h t cur o = (sibValY cx cy w h t o).or cur := by
  unfold sibStepY sibValY
  split_ifs <;> rfl

lemma foldl_sibStepX_none (cx cy w h t : Int) (init : Option Int)
    (L : List QRectE) (hL : ∀ o ∈ L, sibValX cx cy w h t o = none) :
    L.foldl (sibStepX cx cy w h t) init = init := by
  induction L generalizing init with
  | nil => rfl
  | cons a L ih =>
    have ha : sibValX cx cy w h t a = none := hL a (by simp)
    have : sibStepX cx cy w h t init a = init := by
      rw [sibStepX_eq_or, ha]; rfl
    simp only [List.foldl_cons, this]
    exact ih init fun o ho => hL o (by simp [ho])

lemma foldl_sibStepY_none (cx cy w h t : Int) (init : Option Int)
    (L : List QRectE) (hL : ∀ o ∈ L, sibValY cx cy w h t o = none) :
    L.foldl (sibStepY cx cy w h t) init = init := by
  induction L generalizing init with
  | nil => rfl
  | cons a L ih =>
    have ha : sibValY cx cy w h t a = none := hL a (by simp)
    have : sibStepY cx cy w h t init a = init := by
      rw [sibStepY_eq_or, ha]; rfl
    simp only [List.foldl_cons, this]
    exact ih init fun o ho => hL o (by simp [ho])

lemma snapX_no_sib (cx cy w h t : Int) (scr : QRectE) (sibs : List QRectE)
    (hs : ∀ o ∈ sibs, sibValX cx cy w h t o = none) :
    snapX cx cy w h t scr sibs = screenSnapX cx w t scr :=
  foldl_sibStepX_none cx cy w h t _ sibs hs

lemma snapY_no_sib (cx cy w h t : Int) (scr : QRectE) (sibs : List QRectE)
    (hs : ∀ o ∈ sibs, sibValY cx cy w h t o = none) :
    snapY cx cy w h t scr sibs = screenSnapY cy h t scr :=
  foldl_sibStepY_none cx cy w h t _ sibs hs

/-- C2: during a drag with snapping enabled, when no sibling contributes on
an axis, a candidate within `threshold` of the screen's left edge snaps to
`screenLeft`, otherwise one within threshold of the right edge snaps to
`screenRight - width` (Qt's `QRect.right()`), and symmetrically for the
top and bottom edges. -/
theorem screen_edge_snap (cx cy w h t : Int) (scr : QRectE) (sibs : List QRectE)
    (hx : ∀ o ∈ sibs, sibValX cx cy w h t o = none)
    (hy : ∀ o ∈ sibs, sibValY cx cy w h t o = none) :
    (|cx - scr.left| < t → snapX cx cy w h t scr sibs = some scr.left) ∧
    (¬ |cx - scr.left| < t → |cx + w - scr.right| < t →
      snapX cx cy w h t scr sibs = some (scr.right - w)) ∧
    (|cy - scr.top| < t → snapY cx cy w h t scr sibs = some scr.top) ∧
    (¬ |cy - scr.top| < t → |cy + h - scr.bottom| < t →
      snapY cx cy w h t scr sibs = some (scr.bottom - h)) := by
  rw [snapX_no_sib cx cy w h t scr sibs hx, snapY_no_sib cx cy w h t scr sibs hy]
  unfold screenSnapX screenSnapY
  refine ⟨fun h1 => ?_, fun h1 h2 => ?_, fun h1 => ?_, fun h1 h2 => ?_⟩
  · simp [h1]
  · simp [h1, h2]
  · simp [h1]
  · simp [h1, h2]

/-- C2 witness: screen bounds 0..1920 × 0..1080, threshold 20, window
width 220, drag candidate x = 15 gives snapped x = 0. -/
theorem screen_edge_snap_witness :
    snapX 15 500 220 220 20 ⟨0, 0, 1920, 1080⟩ [] = some 0 :=
  (screen_edge_snap 15 500 220 220 20 ⟨0, 0, 1920, 1080⟩ []
    (fun o ho => absurd ho (List.not_mem_nil o))
    (fun o ho => absurd ho (List.not_mem_nil o))).1 (by decide)

/-- C3: with no screen-edge match on x, a single sibling `S` produces an
X-snap exactly when the moving window's right edge is within threshold of
`S`'s left edge (snapping to `S.left - w`) or, failing that, its left edge
is within threshold of `S`'s right edge (snapping to `S.right`), and in
either case only when the Y-ranges overlap; with no Y-overlap no X-snap
occurs at all. -/
theorem sibling_snap_x_characterisation (cx cy w h t : Int) (scr : QRectE)
    (S : QRectE) (hscr : screenSnapX cx w t scr = none) :
    (yOverlapB cy h S = false → snapX cx cy w h t scr [S] = none) ∧
    (yOverlapB cy h S = true →
      (|cx + w - S.left| < t → snapX cx cy w h t scr [S] = some (S.left - w)) ∧
      (¬ |cx + w - S.left| < t → |cx - S.right| < t →
        snapX cx cy w h t scr [S] = some S.right) ∧
      (¬ |cx + w - S.left| < t → ¬ |cx - S.right| < t →
        snapX cx cy w h t scr [S] = none)) := by
  have hfold : snapX cx cy w h t scr [S] = sibStepX cx cy w h t none S := by
    unfold snapX
    rw [hscr]
    rfl
  rw [hfold]
  unfold sibStepX
  refine ⟨fun hov => ?_, fun hov => ⟨fun h1 => ?_, fun h1 h2 => ?_, fun h1 h2 => ?_⟩⟩
  · split_ifs <;> simp_all
  · simp [h1, hov]
  · simp [h1, h2, hov]
  · simp [h1, h2]

/-- C3 witness: with A at (400,100) sized 220×220 and B's candidate
top-left at (177,150) (so B's right edge candidate is 397), threshold 20,
B snaps to x = 180, making B.right = 180 + 220 = 400 = A.left; with B's
candidate y moved to 600 the Y-ranges no longer overlap and no X-snap
occurs. -/
theorem sibling_snap_x_characterisation_witness :
    snapX 177 150 220 220 20 ⟨0, 0, 1920, 1080⟩ [⟨400, 100, 220, 220⟩] = some 180 ∧
    snapX 177 600 220 220 20 ⟨0, 0, 1920, 1080⟩ [⟨400, 100, 220, 220⟩] = none := by
  constructor
  · exact ((sibling_snap_x_characterisation 177 150 220 220 20
      ⟨0, 0, 1920, 1080⟩ ⟨400, 100, 220, 220⟩ (by decide)).2 (by decide)).1 (by decide)
  · exact (sibling_snap_x_characterisation 177 600 220 220 20
      ⟨0, 0, 1920, 1080⟩ ⟨400, 100, 220, 220⟩ (by decide)).1 (by decide)

/-- C4: on each axis the sibling loop runs after the screen-edge check and
overwrites its result: whatever the screen-edge stage produced, if sibling
`S` matches on x (`T` on y) and no later sibling matches on that axis, the
final snap value is the one contributed by that last matching sibling. -/
theorem sibling_snap_last_wins (cx cy w h t : Int) (scr : QRectE)
    (S T : QRectE) (L1 L2 M1 M2 : List QRectE)
    (hS : (sibValX cx cy w h t S).isSome)
    (hL2 : ∀ o ∈ L2, sibValX cx cy w h t o = none)
    (hT : (sibValY cx cy w h t T).isSome)
    (hM2 : ∀ o ∈ M2, sibValY cx cy w h t o = none) :
    snapX cx cy w h t scr (L1 ++ S :: L2) = sibValX cx cy w h t S ∧
    snapY cx cy w h t scr (M1 ++ T :: M2) = sibValY cx cy w h t T := by
  constructor
  · obtain ⟨v, hv⟩ := Option.isSome_iff_exists.mp hS
    unfold snapX
    rw [List.foldl_append, List.foldl_cons,
      sibStepX_eq_or cx cy w h t _ S, hv]
    have hor : (some v).or
        (List.foldl (sibStepX cx cy w h t) (screenSnapX cx w t scr) L1) = some v := rfl
    rw [hor, foldl_sibStepX_none cx cy w h t _ L2 hL2]
  · obtain ⟨v, hv⟩ := Option.isSome_iff_exists.mp hT
    unfold snapY
    rw [List.foldl_append, List.foldl_cons,
      sibStepY_eq_or cx cy w h t _ T, hv]
    have hor : (some v).or
        (List.foldl (sibStepY cx cy w h t) (screenSnapY cy h t scr) M1) = some v := rfl
    rw [hor, foldl_sibStepY_none cx cy w h t _ M2 hM2]

/-- C4 witness: candidate (15,150) is within threshold of the screen's
left edge (screen-edge snap would give 0), yet with two matching siblings
at x = 230 and x = 240 the final snap is 240 − 220 = 20, the value from
the last sibling visited; on y a sibling with top edge 380 yields 160. -/
theorem sibling_snap_last_wins_witness :
    snapX 15 150 220 220 20 ⟨0, 0, 1920, 1080⟩
      [⟨230, 100, 220, 220⟩, ⟨240, 100, 220, 220⟩] = some 20 ∧
    snapY 15 150 220 220 20 ⟨0, 0, 1920, 1080⟩
      [⟨10, 380, 220, 220⟩] = some 160 := by
  have := sibling_snap_last_wins 15 150 220 220 20 ⟨0, 0, 1920, 1080⟩
    ⟨240, 100, 220, 220⟩ ⟨10, 380, 220, 220⟩
    [⟨230, 100, 220, 220⟩] [] [] []
    (by decide) (fun o ho => absurd ho (List.not_mem_nil o))
    (by decide) (fun o ho => absurd ho (List.not_mem_nil o))
  exact ⟨this.1.trans (by decide), this.2.trans (by decide)⟩

/-! ## Resize: `BaseWidget._update_widget_size` (src/main.py lines 490-513) -/

/-- `min_w, max_w = 200, 800`: `new_width = max(min_w, min(max_w, new_width))`. -/
def clampContentW (nw : Int) : Int := max 200 (min 800 nw)

/-- `min_h, max_h = 150, 600`: `new_height = max(min_h, min(max_h, new_height))`. -/
def clampContentH (nh : Int) : Int := max 150 (min 600 nh)

/-- The per-window state the engine reads and writes: id, size class key,
top-left position, content size, the click-through and always-on-top flags
and the rendering opacity. -/
structure LiveWidget where
  wid : String
  sizeKey : String
  posX : Int
  posY : Int
  contentW : Int
  contentH : Int
  clickThrough : Bool
  alwaysOnTop : Bool
  opacity : ℚ
  deriving DecidableEq, Repr

/-- One persisted dictionary of `config.widgets`: every field optional,
mirroring Python's `dict.get` reads with defaults. -/
structure Entry where
  eid : Option String
  etype : Option String
  ename : Option String
  esize : Option String
  position : Option (List Int)
  clickThrough : Option Bool
  alwaysOnTop : Option Bool
  customWidth : Option Int
  customHeight : Option Int
  deriving DecidableEq, Repr

/-- Effect of `_update_widget_size` on the widget itself: the content size
becomes the clamped request; `setFixedSize` does not move the window, so the
top-left position and every other field stay put. -/
def applyResize (lw : LiveWidget) (nw nh : Int) : LiveWidget :=
  { lw with contentW := clampContentW nw, contentH := clampContentH nh }

/-- The configuration write-back of `_update_widget_size` (lines 507-513):
walk `config.widgets` and set `custom_width`/`custom_height` on the first
entry whose id matches (the loop `break`s there), leaving every other entry
untouched. -/
def updateEntrySize : List Entry → String → Int → Int → List Entry
  | [], _, _, _ => []
  | e :: rest, wid, cw, ch =>
    if e.eid = some wid then
      { e with customWidth := some cw, customHeight := some ch } :: rest
    else
      e :: updateEntrySize rest wid cw ch

/-- The whole resize step on the system state: the widget carrying the given
id gets the clamped size and its config entry the custom dimensions. -/
def resizeOp (ws : List LiveWidget) (es : List Entry) (wid : String)
    (nw nh : Int) : List LiveWidget × List Entry :=
  (ws.map fun lw => if lw.wid = wid then applyResize lw nw nh else lw,
   updateEntrySize es wid (clampContentW nw) (clampContentH nh))

/-- C5: every resize request is accepted and clamped into [200,800]×[150,600]:
the resulting content size always satisfies the size invariants, a 900×700
request yields 800×600, and a 50×50 request yields 200×150. -/
theorem resize_always_clamped (lw : LiveWidget) (nw nh : Int) :
    (200 ≤ (applyResize lw nw nh).contentW ∧ (applyResize lw nw nh).contentW ≤ 800 ∧
     150 ≤ (applyResize lw nw nh).contentH ∧ (applyResize lw nw nh).contentH ≤ 600) ∧
    ((applyResize lw 900 700).contentW = 800 ∧ (applyResize lw 900 700).contentH = 600) ∧
    ((applyResize lw 50 50).contentW = 200 ∧ (applyResize lw 50 50).contentH = 150) := by
  unfold applyResize clampContentW clampContentH
  refine ⟨⟨?_, ?_, ?_, ?_⟩,
    ⟨by show max 200 (min 800 900) = (800 : Int); omega,
     by show max 150 (min 600 700) = (600 : Int); omega⟩,
    ⟨by show max 200 (min 800 50) = (200 : Int); omega,
     by show max 150 (min 600 50) = (150 : Int); omega⟩⟩
  · show (200 : Int) ≤ max 200 (min 800 nw)
    omega
  · show max 200 (min 800 nw) ≤ (800 : Int)
    omega
  · show (150 : Int) ≤ max 150 (min 600 nh)
    omega
  · show max 150 (min 600 nh) ≤ (600 : Int)
    omega

/-- C10: a resize mutates only the resized widget's content size and its own
entry's `custom_width`/`custom_height`: the widget keeps its position and all
non-size state, every widget with a different id is unchanged, every config
entry keeps all fields other than the custom dimensions, and entries whose id
differs are untouched entirely. -/
theorem resize_frame_effect (ws : List LiveWidget) (es : List Entry)
    (wid : String) (nw nh : Int) :
    List.Forall₂ (fun lw lw' =>
      (lw.wid ≠ wid → lw' = lw) ∧
      (lw.wid = wid → lw'.posX = lw.posX ∧ lw'.posY = lw.posY ∧
        lw'.wid = lw.wid ∧ lw'.sizeKey = lw.sizeKey ∧
        lw'.clickThrough = lw.clickThrough ∧ lw'.alwaysOnTop = lw.alwaysOnTop ∧
        lw'.opacity = lw.opacity ∧
        lw'.contentW = clampContentW nw ∧ lw'.contentH = clampContentH nh))
      ws (resizeOp ws es wid nw nh).1 ∧
    List.Forall₂ (fun e e' =>
      (e.eid ≠ some wid → e' = e) ∧
      e'.eid = e.eid ∧ e'.etype = e.etype ∧ e'.ename = e.ename ∧
      e'.esize = e.esize ∧ e'.position = e.position ∧
      e'.clickThrough = e.clickThrough ∧ e'.alwaysOnTop = e.alwaysOnTop)
      es (resizeOp ws es wid nw nh).2 := by
  constructor
  · show List.Forall₂ _ ws
      (ws.map fun lw => if lw.wid = wid then applyResize lw nw nh else lw)
    induction ws with
    | nil => exact List.Forall₂.nil
    | cons a l ih =>
      rw [List.map_cons]
      refine List.Forall₂.cons ?_ ih
      by_cases hid : a.wid = wid
      · exact ⟨fun hne => absurd hid hne,
          fun _ => by simp [hid, applyResize]⟩
      · exact ⟨fun _ => by simp [hid], fun heq => absurd heq hid⟩
  · show List.Forall₂ _ es
      (updateEntrySize es wid (clampContentW nw) (clampContentH nh))
    induction es with
    | nil => exact List.Forall₂.nil
    | cons e l ih =>
      unfold updateEntrySize
      by_cases hid : e.eid = some wid
      · rw [if_pos hid]
        refine List.Forall₂.cons
          ⟨fun hne => absurd hid hne, rfl, rfl, rfl, rfl, rfl, rfl, rfl⟩ ?_
        exact List.forall₂_same.mpr
          fun x _ => ⟨fun _ => rfl, rfl, rfl, rfl, rfl, rfl, rfl, rfl⟩
      · rw [if_neg hid]
        exact List.Forall₂.cons
          ⟨fun _ => rfl, rfl, rfl, rfl, rfl, rfl, rfl, rfl⟩ ih

/-! ## Click-through: `BaseWidget._toggle_click_through` (src/main.py lines
972-997); the identical style writes appear in
`WidgetManager._restore_widgets` (lines 4374-4379) and
`WidgetManager._disable_all_click_through` (lines 4300-4304). -/

/-- `WS_EX_TRANSPARENT = 0x00000020` (bit 5). -/
def WS_EX_TRANSPARENT : Nat := 0x20

/-- `WS_EX_LAYERED = 0x00080000` (bit 19). -/
def WS_EX_LAYERED : Nat := 0x80000

/-- The click-through-relevant state of one window: the logical flag, the
native extended style word (`GetWindowLongW(hwnd, GWL_EXSTYLE)`) and the
persisted `click_through` field of its config entry. -/
structure WinStyleState where
  clickThrough : Bool
  exStyle : Nat
  cfgClickThrough : Bool
  deriving DecidableEq, Repr

/-- Applying the click-through value `b`, exactly as the two branches of
`_toggle_click_through` write it once `self.click_through` is `b`: enabling
ORs `WS_EX_TRANSPARENT | WS_EX_LAYERED` into the style; disabling clears
only `WS_EX_TRANSPARENT` (`ex_style &= ~WS_EX_TRANSPARENT`), keeping
`WS_EX_LAYERED`; the persisted field is set to `b`. -/
def setClickThrough (b : Bool) (s : WinStyleState) : WinStyleState :=
  { clickThrough := b,
    exStyle := if b then s.exStyle ||| (WS_EX_TRANSPARENT ||| WS_EX_LAYERED)
               else Nat.ldiff s.exStyle WS_EX_TRANSPARENT,
    cfgClickThrough := b }

/-- The native hit-testing behaviour: pointer events pass through exactly
when the `WS_EX_TRANSPARENT` bit (bit 5) of the extended style is set. -/
def hitTestTransparent (s : WinStyleState) : Bool := s.exStyle.testBit 5

lemma lor_lor_self (a m : Nat) : (a ||| m) ||| m = a ||| m :=
  Nat.eq_of_testBit_eq fun i => by
    simp [Nat.testBit_lor, Bool.or_assoc]

lemma ldiff_ldiff_self (a m : Nat) :
    Nat.ldiff (Nat.ldiff a m) m = Nat.ldiff a m :=
  Nat.eq_of_testBit_eq fun i => by
    simp [Nat.testBit_ldiff, Bool.and_assoc]

/-- C6: applying the same click-through value twice produces exactly the
state of applying it once (logical flag, native extended style word and
persisted field — no observable difference), and toggling click-through on
and then off restores the `WS_EX_TRANSPARENT` hit-testing bit, and with it
the logical flag, to the pre-toggle state whenever that state had the bit
clear (as every non-click-through window does). -/
theorem click_through_idempotent_and_round_trip (b : Bool) (s : WinStyleState) :
    setClickThrough b (setClickThrough b s) = setClickThrough b s ∧
    (s.exStyle.testBit 5 = false → s.clickThrough = false →
      hitTestTransparent (setClickThrough false (setClickThrough true s)) =
        hitTestTransparent s ∧
      (setClickThrough false (setClickThrough true s)).clickThrough =
        s.clickThrough ∧
      (setClickThrough false (setClickThrough true s)).cfgClickThrough =
        s.clickThrough) := by
  constructor
  · cases b <;> simp [setClickThrough, lor_lor_self, ldiff_ldiff_self]
  · intro hbit hflag
    refine ⟨?_, by simp [setClickThrough, hflag], by simp [setClickThrough, hflag]⟩
    show (Nat.ldiff (s.exStyle ||| (WS_EX_TRANSPARENT ||| WS_EX_LAYERED))
      WS_EX_TRANSPARENT).testBit 5 = s.exStyle.testBit 5
    have h32 : Nat.testBit WS_EX_TRANSPARENT 5 = true := by decide
    rw [Nat.testBit_ldiff, h32, hbit]
    simp

/-- C6 witness: a window whose extended style is `WS_EX_LAYERED` only
(bit 5 clear, flag off): applying `true` twice equals applying it once, and
the on-then-off round trip leaves hit-testing as before. -/
theorem click_through_idempotent_and_round_trip_witness :
    setClickThrough true (setClickThrough true ⟨false, 0x80000, false⟩) =
      setClickThrough true ⟨false, 0x80000, false⟩ ∧
    ((0x80000 : Nat).testBit 5 = false → false = false →
      hitTestTransparent (setClickThrough false
        (setClickThrough true ⟨false, 0x80000, false⟩)) =
        hitTestTransparent ⟨false, 0x80000, false⟩ ∧
      (setClickThrough false
        (setClickThrough true ⟨false, 0x80000, false⟩)).clickThrough = false ∧
      (setClickThrough false
        (setClickThrough true ⟨false, 0x80000, false⟩)).cfgClickThrough = false) :=
  click_through_idempotent_and_round_trip true ⟨false, 0x80000, false⟩

/-! ## Registration: `BaseWidget.__init__` (src/main.py lines 382-401) -/

/-- Registration of a freshly constructed instance (line 401):
`BaseWidget._all_widgets.append(self)` — an unconditional list append with
no duplicate-id check and no failure path. -/
def registerWidget (l : List LiveWidget) (w : LiveWidget) : List LiveWidget :=
  l ++ [w]

/-- C7 counterexample: registering a second instance whose id "a" is
already present succeeds silently and leaves two registered instances
sharing the id — refuting the claim that a duplicate-id registration fails
loudly. -/
theorem register_duplicate_id_silently_accepted :
    (registerWidget
        (registerWidget [] ⟨"a", "medium", 0, 0, 220, 220, false, false, 1⟩)
        ⟨"a", "medium", 5, 5, 220, 220, false, false, 1⟩).countP
      (fun v => v.wid == "a") = 2 := by
  decide

/-- C7 amended: registration never fails and performs no duplicate check:
it always appends, so the number of registered instances carrying the new
widget's id grows by one even when that id is already present, and every
previously registered instance stays registered. -/
theorem register_appends_unconditionally (l : List LiveWidget) (w : LiveWidget) :
    (registerWidget l w).countP (fun v => v.wid == w.wid) =
      l.countP (fun v => v.wid == w.wid) + 1 ∧
    (registerWidget l w).length = l.length + 1 ∧
    w ∈ registerWidget l w := by
  unfold registerWidget
  refine ⟨?_, by simp, by simp⟩
  simp [List.countP_append, List.countP_cons]

/-! ## Opacity: `WidgetConfig.load` (src/main.py lines 170-181), the
settings slider (lines 3658-3661 and 3725-3729) and `BaseWidget.__init__`
(line 387). -/

/-- `WidgetConfig.load`: `self.widget_opacity = data.get("widget_opacity",
0.95)` — the persisted value is adopted verbatim, default 0.95, with no
clamping. -/
def loadWidgetOpacity (docOpacity : Option ℚ) : ℚ := docOpacity.getD (19 / 20)

/-- `BaseWidget.__init__` line 387: `self.opacity = config.widget_opacity`. -/
def newWidgetOpacity (cfgOpacity : ℚ) : ℚ := cfgOpacity

/-- `_on_opacity_changed` (line 3727): the slider value, constrained by
`setRange(50, 100)`, maps to `value / 100`. -/
def sliderOpacity (v : Int) : ℚ := (v : ℚ) / 100

/-- C8 counterexample: a configuration document carrying
`widget_opacity = 0.25` is loaded unclamped and a widget created right
after load renders at opacity 0.25, below 0.5 — refuting the claim that
the invariant holds whatever value the document contains. -/
theorem opacity_invariant_fails_on_out_of_range_doc :
    newWidgetOpacity (loadWidgetOpacity (some (1 / 4))) = 1 / 4 ∧
    ¬ (1 / 2 ≤ newWidgetOpacity (loadWidgetOpacity (some (1 / 4)))) := by
  refine ⟨rfl, ?_⟩
  show ¬ ((1 : ℚ) / 2 ≤ 1 / 4)
  norm_num

/-- C8 amended: a widget created after load has opacity equal to the
document's `widget_opacity` value verbatim; that opacity lies in [0.5, 1.0]
whenever the document's value does — in particular the default 0.95 and
every value the settings slider (range 50-100, mapped to `value / 100`) can
produce lie in range — but `load` applies no clamping, so only in-range
documents preserve the invariant. -/
theorem opacity_in_range_for_in_range_doc (q : ℚ) (v : Int)
    (hq1 : 1 / 2 ≤ q) (hq2 : q ≤ 1) (hv1 : 50 ≤ v) (hv2 : v ≤ 100) :
    newWidgetOpacity (loadWidgetOpacity (some q)) = q ∧
    (1 / 2 ≤ newWidgetOpacity (loadWidgetOpacity (some q)) ∧
      newWidgetOpacity (loadWidgetOpacity (some q)) ≤ 1) ∧
    (1 / 2 ≤ newWidgetOpacity (loadWidgetOpacity none) ∧
      newWidgetOpacity (loadWidgetOpacity none) ≤ 1) ∧
    (1 / 2 ≤ sliderOpacity v ∧ sliderOpacity v ≤ 1) := by
  have hv1q : (50 : ℚ) ≤ (v : ℚ) := by exact_mod_cast hv1
  have hv2q : (v : ℚ) ≤ 100 := by exact_mod_cast hv2
  refine ⟨rfl, ⟨hq1, hq2⟩, ⟨by norm_num [newWidgetOpacity, loadWidgetOpacity],
    by norm_num [newWidgetOpacity, loadWidgetOpacity]⟩, ⟨?_, ?_⟩⟩
  · unfold sliderOpacity
    linarith
  · unfold sliderOpacity
    linarith

/-- C8 amended witness: the document value 0.5 (and slider value 95). -/
theorem opacity_in_range_for_in_range_doc_witness :
    newWidgetOpacity (loadWidgetOpacity (some (1 / 2))) = 1 / 2 ∧
    (1 / 2 ≤ newWidgetOpacity (loadWidgetOpacity (some (1 / 2))) ∧
      newWidgetOpacity (loadWidgetOpacity (some (1 / 2))) ≤ 1) ∧
    (1 / 2 ≤ newWidgetOpacity (loadWidgetOpacity none) ∧
      newWidgetOpacity (loadWidgetOpacity none) ≤ 1) ∧
    (1 / 2 ≤ sliderOpacity 95 ∧ sliderOpacity 95 ≤ 1) :=
  opacity_in_range_for_in_range_doc (1 / 2) 95 (by norm_num) (by norm_num)
    (by norm_num) (by norm_num)

/-! ## Persistence and restore

Save side: `mouseReleaseEvent` (lines 710-717) writes `position`, `size`
and `click_through` into the widget's config entry on drag settle;
`_update_widget_size` (lines 507-513) writes `custom_width` and
`custom_height` on resize; `_bring_to_top` / `_send_to_bottom` (lines
931-936, 965-970) write `always_on_top`; `_add_widget` (lines 4228-4235)
created the entry with `id`, `type` and `name`; the global
`widget_opacity` is stored by `WidgetConfig.save` (lines 183-195).

Restore side: `WidgetManager._restore_widgets` (lines 4329-4386) together
with the constructor chain `BaseWidget.__init__` → `_init_window` →
`_load_top_state` it invokes. -/

/-- `BaseWidget.SIZE_MAP` (lines 370-375). -/
def SIZE_MAP (key : String) : Option (Int × Int) :=
  if key = "small" then some (160, 160)
  else if key = "medium" then some (220, 220)
  else if key = "large" then some (320, 280)
  else if key = "xlarge" then some (480, 360)
  else none

/-- `_init_window` (line 419): `self.SIZE_MAP.get(self.size_key, (220, 220))`. -/
def sizeOfKey (key : String) : Int × Int := (SIZE_MAP key).getD (220, 220)

/-- The keys of `WidgetManager.WIDGET_CLASSES` (lines 3209-3221). -/
def WIDGET_CLASS_NAMES : List String :=
  ["ClockWidget", "SystemMonitorWidget", "TimerWidget", "NotesWidget",
   "ImageWidget", "MusicWidget", "WeatherWidget", "TodoWidget",
   "AlarmWidget", "WorldClockWidget", "NetworkMonitorWidget"]

/-- The widget's config entry once all its write-backs have run: position,
size key and click-through from `mouseReleaseEvent`, custom dimensions from
`_update_widget_size`, `always_on_top` from the z-order toggles, identity
fields from `_add_widget`. -/
def savedEntry (lw : LiveWidget) (etype ename : String) : Entry :=
  { eid := some lw.wid, etype := some etype, ename := some ename,
    esize := some lw.sizeKey,
    position := some [lw.posX, lw.posY],
    clickThrough := some lw.clickThrough,
    alwaysOnTop := some lw.alwaysOnTop,
    customWidth := some lw.contentW, customHeight := some lw.contentH }

/-- Restoration of one entry by `_restore_widgets`: the entry is skipped
(`none`) unless its `type` is a key of `WIDGET_CLASSES` and its `id` is
truthy (`if widget_class and widget_id`); otherwise the widget is
constructed with the size-class default content size (`_init_window` — the
persisted `custom_width`/`custom_height` are never read back), moved to the
stored position when that list has at least two coordinates (line 4346,
otherwise it stays at the platform-assigned position `initPos`), and given
the stored `click_through` (lines 4374-4379), the stored `always_on_top`
(`_load_top_state`) and the global `config.widget_opacity`
(`BaseWidget.__init__` line 387). -/
def restoreEntry (cfgOpacity : ℚ) (initPos : Int × Int) (e : Entry) :
    Option LiveWidget :=
  match e.etype with
  | none => none
  | some ty =>
    if ty ∈ WIDGET_CLASS_NAMES then
      match e.eid with
      | none => none
      | some wid =>
        if wid = "" then none
        else
          let key := e.esize.getD "medium"
          let sz := sizeOfKey key
          let pos := e.position.getD [100, 100]
          let p := if 2 ≤ pos.length then (pos.getD 0 0, pos.getD 1 0)
                   else initPos
          some { wid := wid, sizeKey := key,
                 posX := p.1, posY := p.2,
                 contentW := sz.1, contentH := sz.2,
                 clickThrough := e.clickThrough.getD false,
                 alwaysOnTop := e.alwaysOnTop.getD false,
                 opacity := cfgOpacity }
    else none

/-- Log levels of the calls reachable from `_restore_widgets`. -/
inductive LogLevel where
  | info
  | warning
  | error
  deriving DecidableEq, Repr

/-- `_restore_widgets` over the whole persisted list: each restorable entry
is rebuilt and logs one `logger.info` line (line 4382); a non-restorable
entry is skipped with no log call at all — the loop contains no
`logger.warning`, and `logger.error` fires only when construction raises,
which none of the malformed-field cases do. -/
def restoreAll (cfgOpacity : ℚ) (initPos : Int × Int) :
    List Entry → List LiveWidget × List LogLevel
  | [] => ([], [])
  | e :: rest =>
    match restoreEntry cfgOpacity initPos e with
    | some w => (w :: (restoreAll cfgOpacity initPos rest).1,
                 LogLevel.info :: (restoreAll cfgOpacity initPos rest).2)
    | none => restoreAll cfgOpacity initPos rest

/-- Python truthiness of `widget_class and widget_id` at line 4340: the
`type` is a known class key and the `id` is present and non-empty. -/
def entryRestorable (e : Entry) : Bool :=
  (match e.etype with
   | none => false
   | some ty => decide (ty ∈ WIDGET_CLASS_NAMES)) &&
  (match e.eid with
   | none => false
   | some wid => decide (wid ≠ ""))

lemma restoreEntry_isSome (cfgOpacity : ℚ) (initPos : Int × Int) (e : Entry) :
    (restoreEntry cfgOpacity initPos e).isSome = entryRestorable e := by
  rcases e with ⟨eid, etype, en, esz, pos, ct, aot, cw, ch⟩
  cases etype with
  | none => rfl
  | some ty =>
    by_cases hty : ty ∈ WIDGET_CLASS_NAMES
    · cases eid with
      | none => simp [restoreEntry, entryRestorable, hty]
      | some wid =>
        by_cases hw : wid = "" <;>
          simp [restoreEntry, entryRestorable, hty, hw]
    · simp [restoreEntry, entryRestorable, hty]

lemma restoreAll_cons (cfgOpacity : ℚ) (initPos : Int × Int) (e : Entry)
    (rest : List Entry) :
    restoreAll cfgOpacity initPos (e :: rest) =
      match restoreEntry cfgOpacity initPos e with
      | some w => (w :: (restoreAll cfgOpacity initPos rest).1,
                   LogLevel.info :: (restoreAll cfgOpacity initPos rest).2)
      | none => restoreAll cfgOpacity initPos rest := by
  simp only [restoreAll]

/-- C9 (amended): a persisted entry whose `type` is unknown or whose `id`
is missing or empty is skipped individually — but silently, with no logged
warning (nor any other log line); every restorable entry is still restored,
and out-of-range geometry does not cause a skip: the stored position is
applied unvalidated. -/
theorem restore_skips_malformed_silently (cfgOpacity : ℚ) (initPos : Int × Int)
    (es : List Entry) (e : Entry) (px py : Int) :
    (restoreAll cfgOpacity initPos es).1.length =
      (es.filter entryRestorable).length ∧
    LogLevel.warning ∉ (restoreAll cfgOpacity initPos es).2 ∧
    LogLevel.error ∉ (restoreAll cfgOpacity initPos es).2 ∧
    (entryRestorable e = false → restoreEntry cfgOpacity initPos e = none) ∧
    (entryRestorable e = true → e.position = some [px, py] →
      ∃ w, restoreEntry cfgOpacity initPos e = some w ∧
        w.posX = px ∧ w.posY = py) := by
  refine ⟨?_, ?_, ?_, ?_, ?_⟩
  · induction es with
    | nil => rfl
    | cons a rest ih =>
      rw [restoreAll_cons]
      rcases hsome : restoreEntry cfgOpacity initPos a with _ | w
      · have ha : entryRestorable a = false := by
          rw [← restoreEntry_isSome cfgOpacity initPos a, hsome]
          rfl
        simp [List.filter_cons, ha, ih]
      · have ha : entryRestorable a = true := by
          rw [← restoreEntry_isSome cfgOpacity initPos a, hsome]
          rfl
        simp [List.filter_cons, ha, ih]
  · induction es with
    | nil => simp [restoreAll]
    | cons a rest ih =>
      rw [restoreAll_cons]
      rcases restoreEntry cfgOpacity initPos a with _ | w
      · exact ih
      · simpa using ih
  · induction es with
    | nil => simp [restoreAll]
    | cons a rest ih =>
      rw [restoreAll_cons]
      rcases restoreEntry cfgOpacity initPos a with _ | w
      · exact ih
      · simpa using ih
  · intro hbad
    have := restoreEntry_isSome cfgOpacity initPos e
    rw [hbad] at this
    exact Option.not_isSome_iff_eq_none.mp (by rw [this]; exact Bool.false_ne_true)
  · intro hok hpos
    rcases e with ⟨eid, etype, en, esz, pos, ct, aot, cw, ch⟩
    cases etype with
    | none => exact absurd hok (by simp [entryRestorable])
    | some ty =>
      cases eid with
      | none => exact absurd hok (by simp [entryRestorable])
      | some wid =>
        have hty : ty ∈ WIDGET_CLASS_NAMES := by
          by_contra hc
          simp [entryRestorable, hc] at hok
        have hw : wid ≠ "" := by
          by_contra hc
          simp [entryRestorable, hc] at hok
        simp only at hpos
        subst hpos
        refine ⟨⟨wid, esz.getD "medium", px, py,
          (sizeOfKey (esz.getD "medium")).1, (sizeOfKey (esz.getD "medium")).2,
          ct.getD false, aot.getD false, cfgOpacity⟩, ?_, rfl, rfl⟩
        simp [restoreEntry, hty, hw, List.getD]

/-- C9 counterexample: restoring the list [entry with unknown type
"FooWidget", entry with empty id, entry at far out-of-range position
(99999, 99999), well-formed entry at (10, 20)] skips the first two with no
logged warning at all (the log is two info lines), and restores the
out-of-range entry unvalidated — refuting both the logged-warning part and
the out-of-range-skip part of the claim. -/
theorem restore_counterexample_no_warning :
    restoreAll (19 / 20) (0, 0)
      [⟨some "b1", some "FooWidget", some "x", some "medium", some [1, 2],
         some false, some false, none, none⟩,
       ⟨some "", some "ClockWidget", some "x", some "medium", some [1, 2],
         some false, some false, none, none⟩,
       ⟨some "h1", some "ClockWidget", some "x", some "medium",
         some [99999, 99999], some false, some false, none, none⟩,
       ⟨some "g1", some "ClockWidget", some "x", some "medium", some [10, 20],
         some false, some false, none, none⟩] =
      ([⟨"h1", "medium", 99999, 99999, 220, 220, false, false, 19 / 20⟩,
        ⟨"g1", "medium", 10, 20, 220, 220, false, false, 19 / 20⟩],
       [LogLevel.info, LogLevel.info]) := by
  rfl

/-- C1: the persist → restore round trip loses a custom resize. A medium
widget at (50, 60) resized to content 300×300, with click-through and
always-on-top set and opacity exactly 0.5, saves an entry carrying
`custom_width = custom_height = 300`, yet restores with the medium
size-class default 220×220 — `_restore_widgets` never reads the custom
dimensions back — while position, size key, click-through, always-on-top
and opacity (exactly 0.5) do round trip. -/
theorem round_trip_drops_custom_size :
    restoreEntry (1 / 2) (0, 0)
        (savedEntry ⟨"w1", "medium", 50, 60, 300, 300, true, true, 1 / 2⟩
          "ClockWidget" "Clock")
      = some ⟨"w1", "medium", 50, 60, 220, 220, true, true, 1 / 2⟩ ∧
    (savedEntry ⟨"w1", "medium", 50, 60, 300, 300, true, true, 1 / 2⟩
        "ClockWidget" "Clock").customWidth = some 300 ∧
    (savedEntry ⟨"w1", "medium", 50, 60, 300, 300, true, true, 1 / 2⟩
        "ClockWidget" "Clock").customHeight = some 300 ∧
    (220 : Int) ≠ 300 := by
  exact ⟨rfl, rfl, rfl, by decide⟩

end DashWidgets
